import Mathlib

/-!
Verification of the stock-trading core of `src/main.py` (a FastAPI app):
the in-memory ticker registry `FICTIONAL_STOCK_DATA`, the read-only
handlers `get_stocks` and `get_stock_price`, and the mutating handler
`buy_stock`.

Embedding choices:
* A Python string is modelled as a Lean `String`; Python's `str.upper()`
  (applied to ASCII ticker symbols) is modelled by `pyUpper`, which
  uppercases every character of the string.
* The Python dict `FICTIONAL_STOCK_DATA` (insertion-ordered, unique keys)
  is modelled as an association list `Registry`; `dict[k]` lookup is
  `List.lookup`, and in-place assignment `dict[k]["volume"] = v` is
  `setVolume`, which rewrites the value at the key while keeping order.
* Python ints are `Int`. Python floats are modelled inside `ℚ` with
  explicit IEEE-754 binary64 semantics: `float64Round` rounds a rational
  to the value of the nearest double (round half to even; normal range
  only — no overflow or subnormal handling, which the program's values
  never reach), and `pyFloat` is the double denoted by a float literal
  of the source. The handler's `price * quantity` is the correspondingly
  rounded product of the stored price and the converted int, so the
  model exhibits the same representation and rounding error as the
  program (in particular `pyFloat 150.12 ≠ 150.12`, and the product at
  quantity 7 drifts).
* A handler that raises `HTTPException` is modelled as returning an
  `Except` error; since a raise aborts the handler before any mutation,
  the handler also returns the registry, unchanged on the error path.
  All three raises in the source use the same HTTP status (401) and are
  distinguished by their detail message; `ApiError` records the error
  kind and, for `insufficientShares`, the requested and available counts
  that the detail message must report.
-/

/-- Model of Python `str.upper()` on the ASCII strings used as tickers:
uppercase every character. -/
def pyUpper (s : String) : String := ⟨s.data.map Char.toUpper⟩

/-- Round a rational to an integer, halves to the even neighbour — the
rounding of IEEE-754 `roundTiesToEven`. -/
def roundHalfEven (x : ℚ) : ℤ :=
  if x - ⌊x⌋ < 1/2 then ⌊x⌋
  else if (1 : ℚ)/2 < x - ⌊x⌋ then ⌊x⌋ + 1
  else if ⌊x⌋ % 2 = 0 then ⌊x⌋ else ⌊x⌋ + 1

/-- The value of the IEEE-754 binary64 double nearest to `x` (round half
to even), as a rational: the 53-bit significand for `x`'s binade is
obtained with `roundHalfEven`. Models CPython's `float` in the normal
range (no overflow or subnormal handling — the program's values stay far
inside the normal range). -/
def float64Round (x : ℚ) : ℚ :=
  if x = 0 then 0
  else if x < 0 then
    -(roundHalfEven (-x / (2:ℚ)^(Int.log 2 (-x) - 52)) *
      (2:ℚ)^(Int.log 2 (-x) - 52))
  else
    roundHalfEven (x / (2:ℚ)^(Int.log 2 x - 52)) *
      (2:ℚ)^(Int.log 2 x - 52)

/-- The double denoted by a float literal of the Python source: the
binary64 value nearest to its decimal value. -/
def pyFloat (x : ℚ) : ℚ := float64Round x

/-- One tradable instrument, the value type of `FICTIONAL_STOCK_DATA`:
`{"name": ..., "price": ..., "volume": ...}` in `src/main.py`. -/
structure StockInfo where
  name : String
  price : ℚ
  volume : Int
deriving DecidableEq

/-- The registry: an insertion-ordered association list from canonical
(uppercase) ticker to instrument, modelling the Python dict. -/
abbrev Registry := List (String × StockInfo)

/-- The seed data of `src/main.py` (`FICTIONAL_STOCK_DATA`, lines 34-38). -/
def FICTIONAL_STOCK_DATA : Registry :=
  [("AAPL", ⟨"Apple", pyFloat 150.12, 10⟩),
   ("GOOGL", ⟨"Google", pyFloat 2750.65, 50⟩),
   ("MSFT", ⟨"Microsoft", pyFloat 299.87, 75⟩)]

/-- Response model `StockPrice` of `src/main.py` (lines 16-18). -/
structure StockPrice where
  ticker : String
  price : ℚ
deriving DecidableEq

/-- Response model `BuyStockResponse` of `src/main.py` (lines 26-31). -/
structure BuyStockResponse where
  ticker : String
  quantity : Int
  price_per_share : ℚ
  total_cost : ℚ
  remaining_volume : Int
deriving DecidableEq

/-- The error kinds the handlers raise (`HTTPException` detail messages in
`src/main.py`; all share status 401). `insufficientShares` carries the
requested and available counts that its detail message interpolates. -/
inductive ApiError where
  | tickerNotFound
  | insufficientShares (requested : Int) (available : Int)
  | invalidQuantity
deriving DecidableEq

/-- In-place update `FICTIONAL_STOCK_DATA[key]["volume"] = v`
(`src/main.py` line 203): rewrite the volume stored at `key`, keeping
every other entry and the key order unchanged. -/
def setVolume (reg : Registry) (key : String) (v : Int) : Registry :=
  reg.map fun p => if p.1 == key then (p.1, { p.2 with volume := v }) else p

/-- Handler `get_stocks` (`src/main.py` lines 77-95): iterate over the
registry in order, appending one `{ticker, name}` pair per instrument. -/
def get_stocks (reg : Registry) : List (String × String) :=
  reg.foldl (fun stocks p => stocks ++ [(p.1, p.2.name)]) []

/-- Handler `get_stock_price` (`src/main.py` lines 106-139): uppercase the
ticker, fail with `tickerNotFound` if it is absent, otherwise return the
canonical ticker and its price. Reads only; no registry mutation. -/
def get_stock_price (reg : Registry) (ticker : String) :
    Except ApiError StockPrice :=
  let ticker_upper := pyUpper ticker
  match List.lookup ticker_upper reg with
  | none => Except.error ApiError.tickerNotFound
  | some stock_info => Except.ok ⟨ticker_upper, stock_info.price⟩

/-- Handler `buy_stock` (`src/main.py` lines 150-211), with the source's
exact check order: (1) uppercase the ticker and fail with
`tickerNotFound` if absent (lines 172-179); (2) fail with
`insufficientShares` if `quantity > volume` (lines 184-188); (3) fail
with `invalidQuantity` if `quantity <= 0` (lines 191-195); (4) otherwise
compute `total_cost = price * quantity` — in CPython a binary64
multiplication of the stored double by the int converted to a double,
modelled by `float64Round` — and `new_volume = volume - quantity`, store
the new volume, and return the receipt (lines 197-211). Error paths
return the registry unchanged, since the source raises before its single
mutation. -/
def buy_stock (reg : Registry) (ticker : String) (quantity : Int) :
    Except ApiError BuyStockResponse × Registry :=
  let ticker_upper := pyUpper ticker
  match List.lookup ticker_upper reg with
  | none => (Except.error ApiError.tickerNotFound, reg)
  | some stock_info =>
    if quantity > stock_info.volume then
      (Except.error (ApiError.insufficientShares quantity stock_info.volume), reg)
    else if quantity ≤ 0 then
      (Except.error ApiError.invalidQuantity, reg)
    else
      let price_per_share := stock_info.price
      let total_cost := float64Round (price_per_share * float64Round (quantity : ℚ))
      let new_volume := stock_info.volume - quantity
      (Except.ok ⟨ticker_upper, quantity, price_per_share, total_cost, new_volume⟩,
       setVolume reg ticker_upper new_volume)

/-- The three operations the core exposes. -/
inductive Request where
  | getStocksReq
  | getPriceReq (ticker : String)
  | buyReq (ticker : String) (quantity : Int)

/-- Registry state after serving one request: `get_stocks` and
`get_stock_price` contain no write to `FICTIONAL_STOCK_DATA`, so they
leave the registry as is; `buy_stock` leaves the registry its handler
returns. -/
def stateAfter (reg : Registry) : Request → Registry
  | Request.getStocksReq => reg
  | Request.getPriceReq _ => reg
  | Request.buyReq t q => (buy_stock reg t q).2

/-- State after a sequence of buy requests `(ticker, quantity)`, served
one at a time. -/
def runBuys (reg : Registry) (reqs : List (String × Int)) : Registry :=
  reqs.foldl (fun r req => (buy_stock r req.1 req.2).2) reg

/-- Every instrument in the registry has non-negative available volume. -/
def nonnegVolumes (reg : Registry) : Prop := ∀ p ∈ reg, 0 ≤ p.2.volume

instance (reg : Registry) : Decidable (nonnegVolumes reg) :=
  List.decidableBAll _ reg

/-! ### Helper lemmas -/

theorem char_toNat_ofNat_of_valid (n : Nat) (h : n.isValidChar) :
    (Char.ofNat n).toNat = n := by
  rw [Char.ofNat, dif_pos h]
  simp [Char.ofNatAux, Char.toNat, UInt32.toNat]

theorem char_toUpper_idem (c : Char) :
    Char.toUpper (Char.toUpper c) = Char.toUpper c := by
  simp only [Char.toUpper]
  by_cases h : c.toNat ≥ 97 ∧ c.toNat ≤ 122
  · rw [if_pos h]
    have hv : (c.toNat - 32).isValidChar := Or.inl (by omega)
    have ht : (Char.ofNat (c.toNat - 32)).toNat = c.toNat - 32 :=
      char_toNat_ofNat_of_valid _ hv
    rw [if_neg]
    rw [ht]
    omega
  · rw [if_neg h, if_neg h]

theorem pyUpper_idem (s : String) : pyUpper (pyUpper s) = pyUpper s := by
  simp only [pyUpper, List.map_map]
  congr 1
  apply List.map_congr_left
  intro c _
  exact char_toUpper_idem c

theorem int_log_eq_of_zpow_bounds (x : ℚ) (e : ℤ) (hx : 0 < x)
    (h1 : (2:ℚ)^e ≤ x) (h2 : x < (2:ℚ)^(e+1)) :
    Int.log 2 x = e := by
  have hb : 1 < 2 := one_lt_two
  have hcast : ((2:ℕ):ℚ) = (2:ℚ) := by norm_num
  have hle : e ≤ Int.log 2 x := by
    rw [← Int.zpow_le_iff_le_log hb hx, hcast]
    exact h1
  have hlt : Int.log 2 x < e + 1 := by
    rw [← Int.lt_zpow_iff_log_lt hb hx, hcast]
    exact h2
  omega

theorem float64Round_pos_eq (x : ℚ) (e m : ℤ) (hx : 0 < x)
    (h1 : (2:ℚ)^(e+52) ≤ x) (h2 : x < (2:ℚ)^(e+52+1))
    (hm : roundHalfEven (x / (2:ℚ)^e) = m) :
    float64Round x = m * (2:ℚ)^e := by
  have hlog : Int.log 2 x = e + 52 := int_log_eq_of_zpow_bounds x (e+52) hx h1 h2
  rw [float64Round, if_neg (ne_of_gt hx), if_neg (not_lt.mpr hx.le), hlog]
  have he : e + 52 - 52 = e := by ring
  rw [he, hm]

/-- The double the source literal `150.12` denotes, as an exact dyadic
rational: `5281877937975460 * 2 ^ (-45)`, which differs from the decimal
`150.12`. -/
theorem pyFloat_150_12 :
    pyFloat 150.12 = 5281877937975460 * (2:ℚ)^(-45 : ℤ) := by
  rw [pyFloat]
  apply float64Round_pos_eq 150.12 (-45) 5281877937975460 (by norm_num)
    (by norm_num) (by norm_num)
  have hfl : ⌊(150.12 : ℚ) / (2:ℚ)^(-45 : ℤ)⌋ = 5281877937975459 := by
    rw [Int.floor_eq_iff]
    norm_num
  rw [roundHalfEven, hfl]
  norm_num

/-- The double the source literal `450.36` denotes, as an exact dyadic
rational. -/
theorem pyFloat_450_36 :
    pyFloat 450.36 = 7922816906963190 * (2:ℚ)^(-44 : ℤ) := by
  rw [pyFloat]
  apply float64Round_pos_eq 450.36 (-44) 7922816906963190 (by norm_num)
    (by norm_num) (by norm_num)
  have hfl : ⌊(450.36 : ℚ) / (2:ℚ)^(-44 : ℤ)⌋ = 7922816906963189 := by
    rw [Int.floor_eq_iff]
    norm_num
  rw [roundHalfEven, hfl]
  norm_num

/-- Converting the int `3` to a double is exact. -/
theorem float64Round_int_three : float64Round ((3 : Int) : ℚ) = 3 := by
  have h := float64Round_pos_eq ((3 : Int) : ℚ) (-51) 6755399441055744
    (by norm_num) (by norm_num) (by norm_num) ?_
  · rw [h]
    norm_num
  · have hfl : ⌊((3 : Int) : ℚ) / (2:ℚ)^(-51 : ℤ)⌋ = 6755399441055744 := by
      rw [Int.floor_eq_iff]
      norm_num
    rw [roundHalfEven, hfl]
    norm_num

/-- Converting the int `7` to a double is exact. -/
theorem float64Round_int_seven : float64Round ((7 : Int) : ℚ) = 7 := by
  have h := float64Round_pos_eq ((7 : Int) : ℚ) (-50) 7881299347898368
    (by norm_num) (by norm_num) (by norm_num) ?_
  · rw [h]
    norm_num
  · have hfl : ⌊((7 : Int) : ℚ) / (2:ℚ)^(-50 : ℤ)⌋ = 7881299347898368 := by
      rw [Int.floor_eq_iff]
      norm_num
    rw [roundHalfEven, hfl]
    norm_num

/-- The binary64 product of the stored AAPL price with quantity 3 is
exact: the real product needs no rounding, so `total_cost` for
`buy("aapl", 3)` carries no drift. -/
theorem total_cost_aapl_three :
    float64Round (pyFloat 150.12 * float64Round ((3 : Int) : ℚ)) =
      pyFloat 150.12 * 3 := by
  rw [pyFloat_150_12, float64Round_int_three]
  have h := float64Round_pos_eq (5281877937975460 * (2:ℚ)^(-45 : ℤ) * 3) (-44)
    7922816906963190 (by norm_num) (by norm_num) (by norm_num) ?_
  · rw [h]
    norm_num
  · have hfl : ⌊5281877937975460 * (2:ℚ)^(-45 : ℤ) * 3 / (2:ℚ)^(-44 : ℤ)⌋ =
        7922816906963190 := by
      rw [Int.floor_eq_iff]
      norm_num
    rw [roundHalfEven, hfl]
    norm_num

/-- The exact product of the stored AAPL price with 3 is the double the
literal `450.36` denotes (Python: `150.12 * 3 == 450.36`). -/
theorem total_cost_aapl_three_eq :
    pyFloat 150.12 * 3 = pyFloat 450.36 := by
  rw [pyFloat_150_12, pyFloat_450_36]
  norm_num

/-- The binary64 product of the stored AAPL price with quantity 7 rounds
(a tie, resolved upward to the even significand): `total_cost` for
`buy("AAPL", 7)` is the dyadic `4621643195728528 * 2 ^ (-42)`. -/
theorem total_cost_aapl_seven :
    float64Round (pyFloat 150.12 * float64Round ((7 : Int) : ℚ)) =
      4621643195728528 * (2:ℚ)^(-42 : ℤ) := by
  rw [pyFloat_150_12, float64Round_int_seven]
  apply float64Round_pos_eq (5281877937975460 * (2:ℚ)^(-45 : ℤ) * 7) (-42)
    4621643195728528 (by norm_num) (by norm_num) (by norm_num)
  have hfl : ⌊5281877937975460 * (2:ℚ)^(-45 : ℤ) * 7 / (2:ℚ)^(-42 : ℤ)⌋ =
      4621643195728527 := by
    rw [Int.floor_eq_iff]
    norm_num
  rw [roundHalfEven, hfl]
  norm_num

theorem lookup_cons_eq_if (k a : String) (b : StockInfo)
    (l : List (String × StockInfo)) :
    List.lookup k ((a, b) :: l) = if k = a then some b else List.lookup k l := by
  rw [List.lookup_cons]
  by_cases h : k = a
  · simp [h]
  · simp [beq_eq_false_iff_ne.mpr h, h]

theorem setVolume_cons (a : String) (b : StockInfo)
    (l : List (String × StockInfo)) (k : String) (v : Int) :
    setVolume ((a, b) :: l) k v =
      (a, if a = k then { b with volume := v } else b) :: setVolume l k v := by
  simp only [setVolume, List.map_cons]
  by_cases h : a = k
  · simp [h]
  · simp [beq_eq_false_iff_ne.mpr h, h]

theorem lookup_setVolume_self (reg : Registry) (k : String) (v : Int)
    (info : StockInfo) (h : List.lookup k reg = some info) :
    List.lookup k (setVolume reg k v) = some { info with volume := v } := by
  induction reg with
  | nil => simp at h
  | cons hd tl ih =>
    obtain ⟨a, b⟩ := hd
    rw [setVolume_cons, lookup_cons_eq_if]
    rw [lookup_cons_eq_if] at h
    by_cases hka : k = a
    · rw [if_pos hka] at h
      cases h
      rw [if_pos hka, if_pos hka.symm]
    · rw [if_neg hka] at h
      rw [if_neg hka]
      exact ih h

theorem lookup_setVolume_ne (reg : Registry) (k : String) (v : Int)
    (k2 : String) (h : k2 ≠ k) :
    List.lookup k2 (setVolume reg k v) = List.lookup k2 reg := by
  induction reg with
  | nil => rfl
  | cons hd tl ih =>
    obtain ⟨a, b⟩ := hd
    rw [setVolume_cons, lookup_cons_eq_if, lookup_cons_eq_if]
    by_cases hka : k2 = a
    · rw [if_pos hka, if_pos hka]
      rw [if_neg]
      intro hak
      exact h (hka.trans hak)
    · rw [if_neg hka, if_neg hka]
      exact ih

theorem keys_setVolume (reg : Registry) (k : String) (v : Int) :
    List.map Prod.fst (setVolume reg k v) = List.map Prod.fst reg := by
  induction reg with
  | nil => rfl
  | cons hd tl ih =>
    obtain ⟨a, b⟩ := hd
    rw [setVolume_cons]
    simp only [List.map_cons]
    rw [ih]

theorem mem_setVolume (reg : Registry) (k : String) (v : Int)
    (p : String × StockInfo) (hp : p ∈ setVolume reg k v) :
    ∃ p2 ∈ reg, p.1 = p2.1 ∧ p.2.name = p2.2.name ∧ p.2.price = p2.2.price ∧
      (p.2.volume = v ∨ p.2.volume = p2.2.volume) := by
  simp only [setVolume, List.mem_map] at hp
  obtain ⟨p2, hp2, hpe⟩ := hp
  by_cases hk : p2.1 = k
  · rw [if_pos (beq_iff_eq.mpr hk)] at hpe
    exact ⟨p2, hp2, by rw [← hpe], by rw [← hpe], by rw [← hpe], Or.inl (by rw [← hpe])⟩
  · rw [if_neg (by simp [hk])] at hpe
    exact ⟨p2, hp2, by rw [hpe], by rw [hpe], by rw [hpe], Or.inr (by rw [hpe])⟩

theorem nonnegVolumes_setVolume (reg : Registry) (k : String) (v : Int)
    (h : nonnegVolumes reg) (hv : 0 ≤ v) :
    nonnegVolumes (setVolume reg k v) := by
  intro p hp
  obtain ⟨p2, hp2, -, -, -, hvol⟩ := mem_setVolume reg k v p hp
  cases hvol with
  | inl he => rw [he]; exact hv
  | inr he => rw [he]; exact h p2 hp2

theorem buy_stock_lookup_none (reg : Registry) (t : String) (q : Int)
    (h : List.lookup (pyUpper t) reg = none) :
    buy_stock reg t q = (Except.error ApiError.tickerNotFound, reg) := by
  simp only [buy_stock, h]

theorem buy_stock_insufficient (reg : Registry) (t : String) (q : Int)
    (info : StockInfo) (h : List.lookup (pyUpper t) reg = some info)
    (hq : q > info.volume) :
    buy_stock reg t q =
      (Except.error (ApiError.insufficientShares q info.volume), reg) := by
  simp only [buy_stock, h]
  rw [if_pos hq]

theorem buy_stock_invalid (reg : Registry) (t : String) (q : Int)
    (info : StockInfo) (h : List.lookup (pyUpper t) reg = some info)
    (h1 : ¬ q > info.volume) (h2 : q ≤ 0) :
    buy_stock reg t q = (Except.error ApiError.invalidQuantity, reg) := by
  simp only [buy_stock, h]
  rw [if_neg h1, if_pos h2]

theorem buy_stock_success (reg : Registry) (t : String) (q : Int)
    (info : StockInfo) (h : List.lookup (pyUpper t) reg = some info)
    (h1 : q ≤ info.volume) (h2 : 0 < q) :
    buy_stock reg t q =
      (Except.ok ⟨pyUpper t, q, info.price,
         float64Round (info.price * float64Round (q : ℚ)), info.volume - q⟩,
       setVolume reg (pyUpper t) (info.volume - q)) := by
  simp only [buy_stock, h]
  rw [if_neg (by omega), if_neg (by omega)]

theorem buy_stock_ok_inv (reg : Registry) (t : String) (q : Int)
    (resp : BuyStockResponse) (reg2 : Registry)
    (h : buy_stock reg t q = (Except.ok resp, reg2)) :
    ∃ info, List.lookup (pyUpper t) reg = some info ∧ 0 < q ∧ q ≤ info.volume ∧
      resp = ⟨pyUpper t, q, info.price,
        float64Round (info.price * float64Round (q : ℚ)), info.volume - q⟩ ∧
      reg2 = setVolume reg (pyUpper t) (info.volume - q) := by
  cases hl : List.lookup (pyUpper t) reg with
  | none =>
    rw [buy_stock_lookup_none reg t q hl] at h
    exact absurd (congrArg Prod.fst h) (by simp)
  | some info =>
    by_cases h1 : q > info.volume
    · rw [buy_stock_insufficient reg t q info hl h1] at h
      exact absurd (congrArg Prod.fst h) (by simp)
    · by_cases h2 : q ≤ 0
      · rw [buy_stock_invalid reg t q info hl h1 h2] at h
        exact absurd (congrArg Prod.fst h) (by simp)
      · rw [buy_stock_success reg t q info hl (by omega) (by omega)] at h
        have hr := congrArg Prod.fst h
        have hs := congrArg Prod.snd h
        simp only at hr hs
        exact ⟨info, rfl, by omega, by omega, (Except.ok.inj hr).symm, hs.symm⟩

theorem buy_stock_error_inv (reg : Registry) (t : String) (q : Int)
    (e : ApiError) (h : (buy_stock reg t q).1 = Except.error e) :
    (buy_stock reg t q).2 = reg := by
  cases hl : List.lookup (pyUpper t) reg with
  | none => rw [buy_stock_lookup_none reg t q hl]
  | some info =>
    by_cases h1 : q > info.volume
    · rw [buy_stock_insufficient reg t q info hl h1]
    · by_cases h2 : q ≤ 0
      · rw [buy_stock_invalid reg t q info hl h1 h2]
      · rw [buy_stock_success reg t q info hl (by omega) (by omega)] at h
        simp at h

theorem nonnegVolumes_buyStep (reg : Registry) (t : String) (q : Int)
    (h : nonnegVolumes reg) : nonnegVolumes (buy_stock reg t q).2 := by
  cases hl : List.lookup (pyUpper t) reg with
  | none => rw [buy_stock_lookup_none reg t q hl]; exact h
  | some info =>
    by_cases h1 : q > info.volume
    · rw [buy_stock_insufficient reg t q info hl h1]; exact h
    · by_cases h2 : q ≤ 0
      · rw [buy_stock_invalid reg t q info hl h1 h2]; exact h
      · rw [buy_stock_success reg t q info hl (by omega) (by omega)]
        exact nonnegVolumes_setVolume reg (pyUpper t) (info.volume - q) h (by omega)

theorem nonnegVolumes_runBuys (reg : Registry) (reqs : List (String × Int))
    (h : nonnegVolumes reg) : nonnegVolumes (runBuys reg reqs) := by
  induction reqs generalizing reg with
  | nil => exact h
  | cons r rs ih => exact ih _ (nonnegVolumes_buyStep reg r.1 r.2 h)

/-! ### Claim theorems -/

/-- Claim C1: starting from a registry whose instruments all have
non-negative `availableVolume`, no sequence of buy operations ever makes a
volume negative; moreover a buy whose quantity exceeds the available
volume is rejected with `insufficientShares` and returns the registry
unchanged, and (first conjunct, singleton sequence) a successful buy
leaves every volume non-negative. -/
theorem buy_volume_invariant (reg : Registry) (reqs : List (String × Int))
    (h : nonnegVolumes reg) :
    nonnegVolumes (runBuys reg reqs) ∧
    ∀ t q info, List.lookup (pyUpper t) reg = some info → info.volume < q →
      buy_stock reg t q =
        (Except.error (ApiError.insufficientShares q info.volume), reg) :=
  ⟨nonnegVolumes_runBuys reg reqs h,
   fun t q info hl hq => buy_stock_insufficient reg t q info hl hq⟩

/-- Witness for C1 at the seed registry: a concrete sequence of buys
(including an overdraw attempt) keeps all volumes non-negative, and an
overdrawing buy of 11 AAPL shares is rejected leaving the registry
unchanged. -/
theorem buy_volume_invariant_witness :
    nonnegVolumes (runBuys FICTIONAL_STOCK_DATA
      [("AAPL", 3), ("aapl", 8), ("AAPL", 7)]) ∧
    buy_stock FICTIONAL_STOCK_DATA "AAPL" 11 =
      (Except.error (ApiError.insufficientShares 11 10), FICTIONAL_STOCK_DATA) := by
  obtain ⟨h1, h2⟩ := buy_volume_invariant FICTIONAL_STOCK_DATA
    [("AAPL", 3), ("aapl", 8), ("AAPL", 7)] (by decide)
  exact ⟨h1, h2 "AAPL" 11 ⟨"Apple", pyFloat 150.12, 10⟩ rfl (by decide)⟩

/-- Claim C2 counterexample: on the seed registry, a buy of quantity 0 for
the unknown ticker "ZZZZ" fails with `tickerNotFound`, not with
`invalidQuantity` — the handler checks ticker existence (line 175) before
it ever looks at the quantity (line 191), so quantity positivity is not
validated before or alongside ticker resolution. -/
theorem buy_unknown_zero_qty_is_tickerNotFound :
    (buy_stock FICTIONAL_STOCK_DATA "ZZZZ" 0).1 =
      Except.error ApiError.tickerNotFound ∧
    (buy_stock FICTIONAL_STOCK_DATA "ZZZZ" 0).1 ≠
      Except.error ApiError.invalidQuantity := by
  refine ⟨rfl, ?_⟩
  intro h
  rw [show (buy_stock FICTIONAL_STOCK_DATA "ZZZZ" 0).1 =
      Except.error ApiError.tickerNotFound from rfl] at h
  cases Except.error.inj h

/-- Claim C2 (amended): the handler resolves the ticker first; a request
whose canonicalized ticker is absent fails with `tickerNotFound`
regardless of quantity, and a request for a present ticker with
non-negative available volume and `quantity <= 0` fails with
`invalidQuantity`. In both cases the registry is returned unchanged. -/
theorem buy_quantity_validation (reg : Registry) (t : String) (q : Int) :
    (List.lookup (pyUpper t) reg = none →
      buy_stock reg t q = (Except.error ApiError.tickerNotFound, reg)) ∧
    (∀ info, List.lookup (pyUpper t) reg = some info → 0 ≤ info.volume →
      q ≤ 0 → buy_stock reg t q = (Except.error ApiError.invalidQuantity, reg)) := by
  constructor
  · intro h
    exact buy_stock_lookup_none reg t q h
  · intro info hl hv hq
    exact buy_stock_invalid reg t q info hl (by omega) hq

/-- Witness for the amended C2 on the seed registry: an unknown ticker
with quantity 0 gives `tickerNotFound`; a known ticker with quantity 0
gives `invalidQuantity`. -/
theorem buy_quantity_validation_witness :
    buy_stock FICTIONAL_STOCK_DATA "ZZZZ" 0 =
      (Except.error ApiError.tickerNotFound, FICTIONAL_STOCK_DATA) ∧
    buy_stock FICTIONAL_STOCK_DATA "AAPL" 0 =
      (Except.error ApiError.invalidQuantity, FICTIONAL_STOCK_DATA) :=
  ⟨(buy_quantity_validation FICTIONAL_STOCK_DATA "ZZZZ" 0).1 rfl,
   (buy_quantity_validation FICTIONAL_STOCK_DATA "AAPL" 0).2
     ⟨"Apple", pyFloat 150.12, 10⟩ rfl (by decide) (by decide)⟩

/-- Claim C4: for every ticker string whose canonicalized form is absent
from the registry, `get_stock_price` fails with `tickerNotFound`, and
`buy_stock` with any positive quantity fails with `tickerNotFound` and
returns the registry unchanged — never with `insufficientShares`. -/
theorem unknown_ticker_not_found (reg : Registry) (t : String) (q : Int)
    (h : List.lookup (pyUpper t) reg = none) (_hq : 0 < q) :
    get_stock_price reg t = Except.error ApiError.tickerNotFound ∧
    buy_stock reg t q = (Except.error ApiError.tickerNotFound, reg) ∧
    ∀ r a, (buy_stock reg t q).1 ≠ Except.error (ApiError.insufficientShares r a) := by
  have hb := buy_stock_lookup_none reg t q h
  refine ⟨?_, hb, ?_⟩
  · simp only [get_stock_price, h]
  · intro r a he
    rw [hb] at he
    cases Except.error.inj he

/-- Witness for C4 at the unknown ticker "ZZZZ" with quantity 1 on the
seed registry. -/
theorem unknown_ticker_not_found_witness :
    get_stock_price FICTIONAL_STOCK_DATA "ZZZZ" =
      Except.error ApiError.tickerNotFound ∧
    buy_stock FICTIONAL_STOCK_DATA "ZZZZ" 1 =
      (Except.error ApiError.tickerNotFound, FICTIONAL_STOCK_DATA) ∧
    ∀ r a, (buy_stock FICTIONAL_STOCK_DATA "ZZZZ" 1).1 ≠
      Except.error (ApiError.insufficientShares r a) :=
  unknown_ticker_not_found FICTIONAL_STOCK_DATA "ZZZZ" 1 rfl (by decide)

/-- Claim C5: for every ticker present in the registry with non-negative
available volume, a buy with zero or negative quantity fails with
`invalidQuantity` (and no other error kind) and returns the registry
unchanged. -/
theorem nonpositive_quantity_invalid (reg : Registry) (t : String) (q : Int)
    (info : StockInfo) (hl : List.lookup (pyUpper t) reg = some info)
    (hv : 0 ≤ info.volume) (hq : q ≤ 0) :
    buy_stock reg t q = (Except.error ApiError.invalidQuantity, reg) :=
  buy_stock_invalid reg t q info hl (by omega) hq

/-- Witness for C5 on the seed registry: `buy("AAPL", 0)` and
`buy("AAPL", -5)` both fail with `invalidQuantity`. -/
theorem nonpositive_quantity_invalid_witness :
    buy_stock FICTIONAL_STOCK_DATA "AAPL" 0 =
      (Except.error ApiError.invalidQuantity, FICTIONAL_STOCK_DATA) ∧
    buy_stock FICTIONAL_STOCK_DATA "AAPL" (-5) =
      (Except.error ApiError.invalidQuantity, FICTIONAL_STOCK_DATA) :=
  ⟨nonpositive_quantity_invalid FICTIONAL_STOCK_DATA "AAPL" 0
     ⟨"Apple", pyFloat 150.12, 10⟩ rfl (by decide) (by decide),
   nonpositive_quantity_invalid FICTIONAL_STOCK_DATA "AAPL" (-5)
     ⟨"Apple", pyFloat 150.12, 10⟩ rfl (by decide) (by decide)⟩

theorem get_stock_price_none (reg : Registry) (t : String)
    (h : List.lookup (pyUpper t) reg = none) :
    get_stock_price reg t = Except.error ApiError.tickerNotFound := by
  simp only [get_stock_price, h]

theorem get_stock_price_some (reg : Registry) (t : String) (info : StockInfo)
    (h : List.lookup (pyUpper t) reg = some info) :
    get_stock_price reg t = Except.ok ⟨pyUpper t, info.price⟩ := by
  simp only [get_stock_price, h]

/-- Claim C3 counterexample: at the reachable input `buy("AAPL", 7)` on
the seed registry the purchase succeeds, but the receipt's `total_cost`
— the double Python prints as `1050.8400000000001` — does not equal
`price * q` exactly under either reading of the price: it differs both
from the decimal product `150.12 * 7 = 1050.84` and from the exact
product of the stored double price with 7, because the binary64
multiplication rounds. -/
theorem buy_total_cost_drifts :
    (buy_stock FICTIONAL_STOCK_DATA "AAPL" 7).1 =
      Except.ok ⟨"AAPL", 7, pyFloat 150.12,
        4621643195728528 * (2:ℚ)^(-42 : ℤ), 3⟩ ∧
    4621643195728528 * (2:ℚ)^(-42 : ℤ) ≠ (150.12 : ℚ) * 7 ∧
    4621643195728528 * (2:ℚ)^(-42 : ℤ) ≠ pyFloat 150.12 * 7 := by
  refine ⟨?_, by norm_num, ?_⟩
  · have hb := buy_stock_success FICTIONAL_STOCK_DATA "AAPL" 7
      ⟨"Apple", pyFloat 150.12, 10⟩ rfl (by decide) (by decide)
    have h1 : (buy_stock FICTIONAL_STOCK_DATA "AAPL" 7).1 =
        Except.ok ⟨pyUpper "AAPL", 7, pyFloat 150.12,
          float64Round (pyFloat 150.12 * float64Round ((7 : Int) : ℚ)),
          10 - 7⟩ := by
      rw [hb]
    rw [h1, total_cost_aapl_seven]
    rfl
  · rw [pyFloat_150_12]
    norm_num

/-- Claim C3 (amended): a successful buy of `q` shares of a ticker whose
prior available volume is `v` returns a receipt whose `remaining_volume`
is exactly `v - q` and stores exactly `v - q` as the ticker's new volume;
its `total_cost` is the binary64 rounding of the product of the
instrument's stored price and `q` (the double product the program
computes), which equals `price * q` exactly when that product is
representable — as in the spec's `buy("aapl", 3)` example — but can
differ from it, as at `buy("AAPL", 7)`. -/
theorem buy_conservation (reg : Registry) (t : String) (q : Int)
    (info : StockInfo) (hl : List.lookup (pyUpper t) reg = some info)
    (hq : 0 < q) (hv : q ≤ info.volume) :
    buy_stock reg t q =
      (Except.ok ⟨pyUpper t, q, info.price,
         float64Round (info.price * float64Round (q : ℚ)), info.volume - q⟩,
       setVolume reg (pyUpper t) (info.volume - q)) ∧
    List.lookup (pyUpper t) (setVolume reg (pyUpper t) (info.volume - q)) =
      some { info with volume := info.volume - q } :=
  ⟨buy_stock_success reg t q info hl hv hq,
   lookup_setVolume_self reg (pyUpper t) (info.volume - q) info hl⟩

/-- Witness for the amended C3, the spec's end-to-end example:
`buy("aapl", 3)` on the seed registry returns ticker "AAPL", quantity 3,
the stored price per share, remaining volume 7, and a total cost that is
exactly the stored price times 3 (that product is representable, so no
drift at this quantity) — the very double the literal `450.36` denotes —
and stores volume 7 for "AAPL". -/
theorem buy_conservation_witness :
    buy_stock FICTIONAL_STOCK_DATA "aapl" 3 =
      (Except.ok ⟨"AAPL", 3, pyFloat 150.12, pyFloat 150.12 * 3, 7⟩,
       setVolume FICTIONAL_STOCK_DATA "AAPL" 7) ∧
    pyFloat 150.12 * 3 = pyFloat 450.36 ∧
    List.lookup "AAPL" (setVolume FICTIONAL_STOCK_DATA "AAPL" 7) =
      some ⟨"Apple", pyFloat 150.12, 7⟩ := by
  obtain ⟨h1, h2⟩ := buy_conservation FICTIONAL_STOCK_DATA "aapl" 3
    ⟨"Apple", pyFloat 150.12, 10⟩ rfl (by decide) (by decide)
  rw [show pyUpper "aapl" = "AAPL" from rfl] at h1 h2
  rw [show (10 : Int) - 3 = 7 from rfl] at h1 h2
  refine ⟨?_, total_cost_aapl_three_eq, h2⟩
  rw [h1, total_cost_aapl_three]

/-- Claim C6: a failing operation leaves the registry completely
unchanged: whenever `buy_stock` reports any error, its post-state is the
input registry, and `get_stock_price` and `get_stocks` never change the
state at all. -/
theorem failed_op_leaves_state (reg : Registry) (t : String) (q : Int) :
    (∀ e, (buy_stock reg t q).1 = Except.error e → (buy_stock reg t q).2 = reg) ∧
    stateAfter reg (Request.getPriceReq t) = reg ∧
    stateAfter reg Request.getStocksReq = reg :=
  ⟨fun e he => buy_stock_error_inv reg t q e he, rfl, rfl⟩

/-- Witness for C6: the rejected overdraw `buy("AAPL", 11)` on the seed
registry leaves the registry unchanged. -/
theorem failed_op_leaves_state_witness :
    (buy_stock FICTIONAL_STOCK_DATA "AAPL" 11).2 = FICTIONAL_STOCK_DATA :=
  (failed_op_leaves_state FICTIONAL_STOCK_DATA "AAPL" 11).1
    (ApiError.insufficientShares 11 10) rfl

/-- Claim C7: ticker lookup is case-insensitive via uppercase
canonicalization: both handlers behave identically on `t` and on the
uppercased `t`, and on success the returned ticker field is the canonical
uppercase form. -/
theorem ticker_case_insensitive (reg : Registry) (t : String) (q : Int) :
    get_stock_price reg t = get_stock_price reg (pyUpper t) ∧
    buy_stock reg t q = buy_stock reg (pyUpper t) q ∧
    (∀ sp, get_stock_price reg t = Except.ok sp → sp.ticker = pyUpper t) ∧
    (∀ resp reg2, buy_stock reg t q = (Except.ok resp, reg2) →
      resp.ticker = pyUpper t) := by
  refine ⟨?_, ?_, ?_, ?_⟩
  · simp only [get_stock_price, pyUpper_idem]
  · simp only [buy_stock, pyUpper_idem]
  · intro sp h
    cases hl : List.lookup (pyUpper t) reg with
    | none =>
      rw [get_stock_price_none reg t hl] at h
      cases h
    | some info =>
      rw [get_stock_price_some reg t info hl] at h
      rw [← Except.ok.inj h]
  · intro resp reg2 h
    obtain ⟨info, -, -, -, hr, -⟩ := buy_stock_ok_inv reg t q resp reg2 h
    rw [hr]

/-- Witness for C7 on the seed registry: looking up "aapl" equals looking
up "AAPL" for both handlers, and the returned ticker field is "AAPL". -/
theorem ticker_case_insensitive_witness :
    get_stock_price FICTIONAL_STOCK_DATA "aapl" =
      get_stock_price FICTIONAL_STOCK_DATA "AAPL" ∧
    buy_stock FICTIONAL_STOCK_DATA "aapl" 3 =
      buy_stock FICTIONAL_STOCK_DATA "AAPL" 3 ∧
    (StockPrice.mk "AAPL" (pyFloat 150.12)).ticker = "AAPL" := by
  obtain ⟨h1, h2, h3, -⟩ :=
    ticker_case_insensitive FICTIONAL_STOCK_DATA "aapl" 3
  exact ⟨h1, h2, h3 ⟨"AAPL", pyFloat 150.12⟩ rfl⟩

theorem get_stocks_foldl_acc (l : List (String × StockInfo))
    (acc : List (String × String)) :
    l.foldl (fun stocks p => stocks ++ [(p.1, p.2.name)]) acc =
      acc ++ l.map (fun p => (p.1, p.2.name)) := by
  induction l generalizing acc with
  | nil => simp
  | cons hd tl ih =>
    rw [List.foldl_cons, ih, List.map_cons]
    simp

/-- Claim C8: `get_stock_price` and `get_stocks` have no effect on the
registry, and a successful buy modifies only the purchased ticker's
volume: the key sequence is unchanged, every instrument keeps its name
and price, every other ticker's entry (volume included) is unchanged, and
a price query for the purchased ticker still returns its old price. -/
theorem buy_frame (reg : Registry) (t : String) (q : Int)
    (resp : BuyStockResponse) (reg2 : Registry)
    (h : buy_stock reg t q = (Except.ok resp, reg2)) :
    List.map Prod.fst reg2 = List.map Prod.fst reg ∧
    (∀ p ∈ reg2, ∃ p2 ∈ reg, p.1 = p2.1 ∧ p.2.name = p2.2.name ∧
      p.2.price = p2.2.price) ∧
    (∀ k, k ≠ pyUpper t → List.lookup k reg2 = List.lookup k reg) ∧
    (∀ info, List.lookup (pyUpper t) reg = some info →
      get_stock_price reg2 t = Except.ok ⟨pyUpper t, info.price⟩) ∧
    stateAfter reg (Request.getPriceReq t) = reg ∧
    stateAfter reg Request.getStocksReq = reg := by
  obtain ⟨info, hl, hq, hv, hr, hs⟩ := buy_stock_ok_inv reg t q resp reg2 h
  subst hs
  refine ⟨keys_setVolume reg (pyUpper t) (info.volume - q), ?_, ?_, ?_, rfl, rfl⟩
  · intro p hp
    obtain ⟨p2, hp2, h1, h2, h3, -⟩ :=
      mem_setVolume reg (pyUpper t) (info.volume - q) p hp
    exact ⟨p2, hp2, h1, h2, h3⟩
  · intro k hk
    exact lookup_setVolume_ne reg (pyUpper t) (info.volume - q) k hk
  · intro info2 hl2
    rw [hl] at hl2
    cases Option.some.inj hl2
    exact get_stock_price_some _ t { info with volume := info.volume - q }
      (lookup_setVolume_self reg (pyUpper t) (info.volume - q) info hl)

/-- Witness for C8, the spec's example: after `buy("aapl", 3)` on the seed
registry, a price query for "aapl" still returns price 150.12 for
"AAPL". -/
theorem buy_frame_witness :
    get_stock_price (setVolume FICTIONAL_STOCK_DATA "AAPL" 7) "aapl" =
      Except.ok ⟨"AAPL", pyFloat 150.12⟩ :=
  (buy_frame FICTIONAL_STOCK_DATA "aapl" 3
    ⟨"AAPL", 3, pyFloat 150.12,
      float64Round (pyFloat 150.12 * float64Round ((3 : Int) : ℚ)), 7⟩
    (setVolume FICTIONAL_STOCK_DATA "AAPL" 7) rfl).2.2.2.1
    ⟨"Apple", pyFloat 150.12, 10⟩ rfl

/-- Claim C9: `get_stocks` returns exactly one `(ticker, name)` pair per
instrument — and nothing else — in the registry's own (insertion) order:
it equals the ordered map of the registry to `(ticker, name)`, has the
registry's length, and its `i`-th element is the `i`-th instrument's
ticker and name. Being a function of the registry alone, repeated calls
on an unchanged registry return the same list. -/
theorem get_stocks_spec (reg : Registry) :
    get_stocks reg = reg.map (fun p => (p.1, p.2.name)) ∧
    (get_stocks reg).length = reg.length ∧
    ∀ i : Nat, (get_stocks reg)[i]? =
      Option.map (fun p => (p.1, p.2.name)) reg[i]? := by
  have hmap : get_stocks reg = reg.map (fun p => (p.1, p.2.name)) := by
    rw [get_stocks, get_stocks_foldl_acc, List.nil_append]
  refine ⟨hmap, ?_, ?_⟩
  · rw [hmap, List.length_map]
  · intro i
    rw [hmap, List.getElem?_map]
